import Mathlib

/-
Verification of the arbendium/zip ZIP-archive library.

The definitions below are shallow embeddings of the JavaScript sources:
  lib/cp437.js  - CP437 codec
  lib/read.js   - record parsers
  lib/write.js  - record serializers
  lib/zip.js    - writer state machine
  lib/unzip.js  - archive opener, entry iterator, entry read pipeline

Buffers are modelled as `List Nat` of byte values, strings as `List Nat` of
Unicode code points, JavaScript `undefined` slots as `Option Nat`, and
fallible code as `Except ZipError`.  The external zlib CRC-32 primitive is
modelled by the standard reflected CRC-32 algorithm.
-/

set_option maxRecDepth 8192

namespace ArbZip

/-- Errors thrown by the library.  Each constructor corresponds to one
`throw new Error(...)` site in the sources. -/
inductive ZipError where
  | invalidCommentLength
  | eocdrNotFound
  | multiDisk
  | finalized
  | notEncodable
  | missingZip64ExtraField
  | zip64MissingUncompressedSize
  | zip64MissingCompressedSize
  | zip64MissingRelativeOffset
  | zip64MissingDiskNumberStart
  | tooManyBytes
  | notEnoughBytes
  | checksumMismatch
  | unexpectedCompressedSize
  | unexpectedChecksum
  | unexpectedByteCount
  | fileNameTooLong
  | commentTooLong
  | invalidMode
  | bufferTooLarge
  | emptyPath
  | absolutePath
  | invalidRelativePath
  | filePathEndsWithSlash
  | eocdrSignatureInComment
  | strongEncryptionUnsupported
deriving DecidableEq, Repr

/-- Byte access, `buffer[i]` on a Node buffer (reads past the end give 0;
the embedded code only reads in range). -/
def byteAt : List Nat → Nat → Nat
  | [], _ => 0
  | b :: _, 0 => b
  | _ :: rest, i + 1 => byteAt rest i

/-- The 2-byte little-endian read `buffer.readUInt16LE(i)`. -/
def readUInt16LE (buffer : List Nat) (i : Nat) : Nat :=
  byteAt buffer i + 256 * byteAt buffer (i + 1)

/-- The 4-byte little-endian read `buffer.readUInt32LE(i)`. -/
def readUInt32LE (buffer : List Nat) (i : Nat) : Nat :=
  byteAt buffer i + 256 * byteAt buffer (i + 1)
    + 65536 * byteAt buffer (i + 2) + 16777216 * byteAt buffer (i + 3)

/-- The 8-byte little-endian read `buffer.readBigUInt64LE(i)`. -/
def readBigUInt64LE (buffer : List Nat) (i : Nat) : Nat :=
  readUInt32LE buffer i + 4294967296 * readUInt32LE buffer (i + 4)

/-- The 2-byte little-endian write `buffer.writeUInt16LE(n)`. -/
def u16le (n : Nat) : List Nat :=
  [n % 256, n / 256 % 256]

/-- The 4-byte little-endian write `buffer.writeUInt32LE(n)`. -/
def u32le (n : Nat) : List Nat :=
  [n % 256, n / 256 % 256, n / 65536 % 256, n / 16777216 % 256]

/-- The 8-byte little-endian write `buffer.writeBigUInt64LE(n)`. -/
def u64le (n : Nat) : List Nat :=
  u32le (n % 4294967296) ++ u32le (n / 4294967296)

/- ===================== CP437 codec (lib/cp437.js) ===================== -/

/-- The 256-character CP437 table from lib/cp437.js, as Unicode code
points (the source stores it verbatim as a string literal). -/
def cp437Table : List Nat :=
  [0, 9786, 9787, 9829, 9830, 9827, 9824, 8226, 9688, 9675, 9689, 9794,
   9792, 9834, 9835, 9788, 9658, 9668, 8597, 8252, 182, 167, 9644, 8616,
   8593, 8595, 8594, 8592, 8735, 8596, 9650, 9660, 32, 33, 34, 35, 36, 37,
   38, 39, 40, 41, 42, 43, 44, 45, 46, 47, 48, 49, 50, 51, 52, 53, 54, 55,
   56, 57, 58, 59, 60, 61, 62, 63, 64, 65, 66, 67, 68, 69, 70, 71, 72, 73,
   74, 75, 76, 77, 78, 79, 80, 81, 82, 83, 84, 85, 86, 87, 88, 89, 90, 91,
   92, 93, 94, 95, 96, 97, 98, 99, 100, 101, 102, 103, 104, 105, 106, 107,
   108, 109, 110, 111, 112, 113, 114, 115, 116, 117, 118, 119, 120, 121,
   122, 123, 124, 125, 126, 8962, 199, 252, 233, 226, 228, 224, 229, 231,
   234, 235, 232, 239, 238, 236, 196, 197, 201, 230, 198, 244, 246, 242,
   251, 249, 255, 214, 220, 162, 163, 165, 8359, 402, 225, 237, 243, 250,
   241, 209, 170, 186, 191, 8976, 172, 189, 188, 161, 171, 187, 9617, 9618,
   9619, 9474, 9508, 9569, 9570, 9558, 9557, 9571, 9553, 9559, 9565, 9564,
   9563, 9488, 9492, 9524, 9516, 9500, 9472, 9532, 9566, 9567, 9562, 9556,
   9577, 9574, 9568, 9552, 9580, 9575, 9576, 9572, 9573, 9561, 9560, 9554,
   9555, 9579, 9578, 9496, 9484, 9608, 9604, 9612, 9616, 9600, 945, 223,
   915, 960, 931, 963, 181, 964, 934, 920, 937, 948, 8734, 966, 949, 8745,
   8801, 177, 8805, 8804, 8992, 8993, 247, 8776, 176, 8729, 183, 8730,
   8319, 178, 9632, 160]

/-- One step of `decodeCp437`: map a byte through the CP437 table. -/
def cp437Char (b : Nat) : Nat :=
  byteAt cp437Table b

/-- The decoder `decodeCp437(buffer, start, end)` from lib/cp437.js: map
each byte in the range through the table. -/
def decodeCp437 (buffer : List Nat) (start stop : Nat) : List Nat :=
  ((buffer.drop start).take (stop - start)).map cp437Char

/-- The common full-buffer call `decodeCp437(buffer)`. -/
def decodeCp437Full (buffer : List Nat) : List Nat :=
  decodeCp437 buffer 0 buffer.length

/-- The fast-path test of `encodeCp437`: the regular expression
`/^[\x20-\x7e]*$/` applied to one code unit. -/
def isPrintableAscii (c : Nat) : Bool :=
  32 ≤ c && c ≤ 126

/-- UTF-8 encoding of one code point, modelling `Buffer.from(string)`. -/
def utf8EncodeChar (c : Nat) : List Nat :=
  if c < 128 then [c]
  else if c < 2048 then [192 + c / 64, 128 + c % 64]
  else if c < 65536 then [224 + c / 4096, 128 + c / 64 % 64, 128 + c % 64]
  else [240 + c / 262144, 128 + c / 4096 % 64, 128 + c / 64 % 64, 128 + c % 64]

/-- UTF-8 encoding of a string of code points, modelling `Buffer.from(string)`. -/
def utf8Encode (s : List Nat) : List Nat :=
  (s.map utf8EncodeChar).flatten

deriving instance DecidableEq for Except

/-- The lazily built reverse table of `encodeCp437`: the JavaScript loop
`for (i = 0; i < 256; i++) reverseCp437[cp437[i]] = i` stores, for each
character, the last index mapping to it. -/
def reverseCp437 (c : Nat) : Option Nat :=
  (List.range 256).foldl
    (fun acc i => if cp437Char i = c then some i else acc) none

/-- The encoder `encodeCp437(string)` from lib/cp437.js: fast path for
pure printable ASCII, otherwise per-character reverse lookup, failing on
a character with no CP437 representation. -/
def encodeCp437 (s : List Nat) : Except ZipError (List Nat) :=
  if s.all isPrintableAscii then .ok (utf8Encode s)
  else s.mapM fun c =>
    match reverseCp437 c with
    | some b => Except.ok b
    | none => Except.error ZipError.notEncodable

/-- C8: (a) for every byte b, encoding the one-character string obtained by
CP437-decoding `[b]` yields `[b]` again; (b) a string of printable ASCII
takes the fast path, whose output is the UTF-8 encoding of the string. -/
theorem cp437_roundtrip_and_fast_path :
    (∀ b : Nat, b < 256 →
      encodeCp437 (decodeCp437Full [b]) = Except.ok [b]) ∧
    (∀ s : List Nat, s.all isPrintableAscii = true →
      encodeCp437 s = Except.ok (utf8Encode s)) := by
  constructor
  · decide
  · intro s h
    simp [encodeCp437, h]

/-- C8 witness: the round trip at byte 236 and the fast path on "Az". -/
theorem cp437_roundtrip_and_fast_path_witness :
    encodeCp437 (decodeCp437Full [236]) = Except.ok [236] ∧
    encodeCp437 [65, 122] = Except.ok (utf8Encode [65, 122]) :=
  ⟨cp437_roundtrip_and_fast_path.1 236 (by decide),
   cp437_roundtrip_and_fast_path.2 [65, 122] (by decide)⟩

/- ===================== DOS date and time (lib/zip.js, lib/unzip.js) ===================== -/

/-- A UTC timestamp with whole seconds, by components; `month` is 1-based
as on the wire (the sources convert JavaScript's 0-based month). -/
structure DateTime where
  year : Nat
  month : Nat
  day : Nat
  hour : Nat
  minute : Nat
  second : Nat
deriving DecidableEq, Repr

/-- The two 16-bit words of a DOS date/time. -/
structure DosDateTime where
  date : Nat
  time : Nat
deriving DecidableEq, Repr

/-- The encoder `dateToDosDateTime(date)` from lib/zip.js. -/
def dateToDosDateTime (d : DateTime) : DosDateTime where
  date := (d.day &&& 0x1f) ||| ((d.month &&& 0xf) <<< 5) ||| (((d.year - 1980) &&& 0x7f) <<< 9)
  time := d.second / 2 ||| ((d.minute &&& 0x3f) <<< 5) ||| ((d.hour &&& 0x1f) <<< 11)

/-- The decoder `dosDateTimeToDate(date, time)` from lib/unzip.js (the
source passes a 0-based month index to `Date.UTC`; the resulting UTC
components are the ones below). -/
def dosDateTimeToDate (date time : Nat) : DateTime where
  year := ((date >>> 9) &&& 0x7f) + 1980
  month := (date >>> 5) &&& 0xf
  day := date &&& 0x1f
  hour := (time >>> 11) &&& 0x1f
  minute := (time >>> 5) &&& 0x3f
  second := (time &&& 0x1f) * 2

theorem and_mask_mod (x k : Nat) : x &&& (2 ^ k - 1) = x % 2 ^ k :=
  Nat.and_pow_two_sub_one_eq_mod x k

theorem and31 (x : Nat) : x &&& 31 = x % 32 := by
  have h := and_mask_mod x 5; norm_num at h; exact h

theorem and15 (x : Nat) : x &&& 15 = x % 16 := by
  have h := and_mask_mod x 4; norm_num at h; exact h

theorem and127 (x : Nat) : x &&& 127 = x % 128 := by
  have h := and_mask_mod x 7; norm_num at h; exact h

theorem and63 (x : Nat) : x &&& 63 = x % 64 := by
  have h := and_mask_mod x 6; norm_num at h; exact h

theorem lor_shiftLeft_eq_add {a : Nat} (b k : Nat) (h : a < 2 ^ k) :
    a ||| (b <<< k) = b * 2 ^ k + a :=
  calc a ||| (b <<< k) = (b * 2 ^ k) ||| a := by rw [Nat.shiftLeft_eq, Nat.or_comm]
    _ = (2 ^ k * b) ||| a := by rw [Nat.mul_comm]
    _ = 2 ^ k * b + a := (Nat.mul_add_lt_is_or h b).symm
    _ = b * 2 ^ k + a := by rw [Nat.mul_comm]

theorem dateToDosDateTime_date_eq (t : DateTime)
    (hy1 : 1980 ≤ t.year) (hy2 : t.year ≤ 2107)
    (hm2 : t.month ≤ 12) (hd2 : t.day ≤ 31) :
    (dateToDosDateTime t).date = t.day + 32 * t.month + 512 * (t.year - 1980) := by
  have h1 : t.day &&& 0x1f = t.day := by
    rw [and31]; exact Nat.mod_eq_of_lt (by omega)
  have h2 : t.month &&& 0xf = t.month := by
    rw [and15]; exact Nat.mod_eq_of_lt (by omega)
  have h3 : (t.year - 1980) &&& 0x7f = t.year - 1980 := by
    rw [and127]; exact Nat.mod_eq_of_lt (by omega)
  show (t.day &&& 0x1f) ||| ((t.month &&& 0xf) <<< 5) ||| (((t.year - 1980) &&& 0x7f) <<< 9) = _
  rw [h1, h2, h3]
  rw [lor_shiftLeft_eq_add t.month 5 (show t.day < 2 ^ 5 by omega)]
  rw [lor_shiftLeft_eq_add (t.year - 1980) 9 (show t.month * 2 ^ 5 + t.day < 2 ^ 9 by omega)]
  omega

theorem dateToDosDateTime_time_eq (t : DateTime)
    (hh : t.hour ≤ 23) (hmin : t.minute ≤ 59) (hs : t.second ≤ 59) :
    (dateToDosDateTime t).time = t.second / 2 + 32 * t.minute + 2048 * t.hour := by
  have h2 : t.minute &&& 0x3f = t.minute := by
    rw [and63]; exact Nat.mod_eq_of_lt (by omega)
  have h3 : t.hour &&& 0x1f = t.hour := by
    rw [and31]; exact Nat.mod_eq_of_lt (by omega)
  show t.second / 2 ||| ((t.minute &&& 0x3f) <<< 5) ||| ((t.hour &&& 0x1f) <<< 11) = _
  rw [h2, h3]
  rw [lor_shiftLeft_eq_add t.minute 5 (show t.second / 2 < 2 ^ 5 by omega)]
  rw [lor_shiftLeft_eq_add t.hour 11 (show t.minute * 2 ^ 5 + t.second / 2 < 2 ^ 11 by omega)]
  omega

/-- C7: decoding the DOS date/time produced by encoding a valid UTC
timestamp with year in [1980, 2107] yields the timestamp with its seconds
rounded down to even; for even seconds the round trip is exact. -/
theorem dos_datetime_roundtrip (t : DateTime)
    (hy1 : 1980 ≤ t.year) (hy2 : t.year ≤ 2107)
    (hm1 : 1 ≤ t.month) (hm2 : t.month ≤ 12)
    (hd1 : 1 ≤ t.day) (hd2 : t.day ≤ 31)
    (hh : t.hour ≤ 23) (hmin : t.minute ≤ 59) (hs : t.second ≤ 59) :
    dosDateTimeToDate (dateToDosDateTime t).date (dateToDosDateTime t).time
      = { t with second := 2 * (t.second / 2) } ∧
    (t.second % 2 = 0 →
      dosDateTimeToDate (dateToDosDateTime t).date (dateToDosDateTime t).time = t) := by
  have hdate := dateToDosDateTime_date_eq t hy1 hy2 hm2 hd2
  have htime := dateToDosDateTime_time_eq t hh hmin hs
  have hmain : dosDateTimeToDate (dateToDosDateTime t).date (dateToDosDateTime t).time
      = { t with second := 2 * (t.second / 2) } := by
    show ({ year := _, month := _, day := _, hour := _, minute := _, second := _ } : DateTime) = _
    rw [hdate, htime]
    have e1 : ∀ x : Nat, x >>> 9 = x / 512 := by
      intro x; rw [Nat.shiftRight_eq_div_pow]
    have e2 : ∀ x : Nat, x >>> 5 = x / 32 := by
      intro x; rw [Nat.shiftRight_eq_div_pow]
    have e3 : ∀ x : Nat, x >>> 11 = x / 2048 := by
      intro x; rw [Nat.shiftRight_eq_div_pow]
    simp only [DateTime.mk.injEq, e1, e2, e3, and127, and15, and31, and63]
    refine ⟨by omega, by omega, by omega, by omega, by omega, by omega⟩
  refine ⟨hmain, fun heven => ?_⟩
  rw [hmain]
  cases t
  simp only [DateTime.mk.injEq]
  simp at heven ⊢
  omega

/-- C7 witness: the round trip at 2024-08-27 21:13:26 UTC. -/
theorem dos_datetime_roundtrip_witness :
    dosDateTimeToDate (dateToDosDateTime ⟨2024, 8, 27, 21, 13, 26⟩).date
        (dateToDosDateTime ⟨2024, 8, 27, 21, 13, 26⟩).time
      = ⟨2024, 8, 27, 21, 13, 26⟩ :=
  (dos_datetime_roundtrip ⟨2024, 8, 27, 21, 13, 26⟩
    (by decide) (by decide) (by decide) (by decide) (by decide)
    (by decide) (by decide) (by decide) (by decide)).2 (by decide)

/- ===================== Record serializers (lib/write.js) ===================== -/

/-- Flag constants from lib/constants.js, section 4.4.4. -/
def gpbfEncrypted : Nat := 0x0001

def gpbfStrongEncryption : Nat := 0x0040

def gpbfUnknownCrc32AndFileSizes : Nat := 0x0008

def gpbfUtf8 : Nat := 0x0800

/-- Compression method constants from lib/constants.js, section 4.4.5. -/
def compressionMethodNone : Nat := 0

def compressionMethodDeflate : Nat := 8

def VERSION_NEEDED_TO_EXTRACT_UTF8 : Nat := 20

def VERSION_NEEDED_TO_EXTRACT_ZIP64 : Nat := 45

/-- The constant `(3 << 8) | 63` (unix host, spec version 6.3). -/
def VERSION_MADE_BY : Nat := (3 <<< 8) ||| 63

/-- The `serializeExtraFields` helper from lib/write.js: concatenation of
`{id: u16, size: u16, data}` tuples. -/
def serializeExtraFields (extraFields : List (Nat × List Nat)) : List Nat :=
  (extraFields.map fun f => u16le f.1 ++ u16le f.2.length ++ f.2).flatten

/-- The argument record of `serializeLocalFileHeader`. -/
structure LocalFileHeaderArgs where
  versionNeededToExtract : Nat
  generalPurposeBitFlag : Nat
  compressionMethod : Nat
  fileLastModificationTime : Nat
  fileLastModificationDate : Nat
  crc32 : Nat
  compressedSize : Nat
  uncompressedSize : Nat
  fileName : List Nat
  extraFields : List (Nat × List Nat)
deriving DecidableEq, Repr

/-- The serializer `serializeLocalFileHeader` from lib/write.js: the 30-byte
fixed part followed by the file name and the serialized extra fields. -/
def serializeLocalFileHeader (o : LocalFileHeaderArgs) : List Nat :=
  u32le 0x04034b50 ++ u16le o.versionNeededToExtract ++ u16le o.generalPurposeBitFlag
    ++ u16le o.compressionMethod ++ u16le o.fileLastModificationTime
    ++ u16le o.fileLastModificationDate ++ u32le o.crc32 ++ u32le o.compressedSize
    ++ u32le o.uncompressedSize ++ u16le o.fileName.length
    ++ u16le (serializeExtraFields o.extraFields).length
    ++ o.fileName ++ serializeExtraFields o.extraFields

/-- The serializer `serializeDataDescriptor` from lib/write.js (always the
24-byte ZIP64 form: signature, CRC-32, two 64-bit sizes). -/
def serializeDataDescriptor (crc32 compressedSize uncompressedSize : Nat) : List Nat :=
  u32le 0x08074b50 ++ u32le crc32 ++ u64le compressedSize ++ u64le uncompressedSize

/-- The argument record of `serializeEndOfCentralDirectoryRecord`. -/
structure EocdrArgs where
  diskNumber : Nat
  centralDirectoryDiskNumber : Nat
  numberOfEntriesOnDisk : Nat
  numberOfEntries : Nat
  sizeOfCentralDirectory : Nat
  centralDirectoryOffset : Nat
  comment : List Nat
deriving DecidableEq, Repr

/-- The serializer `serializeEndOfCentralDirectoryRecord` from lib/write.js.
The source allocates 22 bytes with `Buffer.allocUnsafe` and never writes the
comment-length word at offset 20; the two unwritten bytes are modelled as
zero here (none of the verified claims concerns them). -/
def serializeEndOfCentralDirectoryRecord (o : EocdrArgs) : List Nat :=
  u32le 0x06054b50 ++ u16le o.diskNumber ++ u16le o.centralDirectoryDiskNumber
    ++ u16le o.numberOfEntriesOnDisk ++ u16le o.numberOfEntries
    ++ u32le o.sizeOfCentralDirectory ++ u32le o.centralDirectoryOffset
    ++ [0, 0] ++ o.comment

/-- The argument record of `serializeZip64EndOfCentralDirectoryRecord`. -/
structure Zip64EocdrArgs where
  versionMadeBy : Nat
  versionNeededToExtract : Nat
  diskNumber : Nat
  centralDirectoryDiskNumber : Nat
  numberOfEntriesOnDisk : Nat
  numberOfEntries : Nat
  sizeOfCentralDirectory : Nat
  centralDirectoryOffset : Nat
  zip64ExtensibleDataSector : List Nat
deriving DecidableEq, Repr

/-- The serializer `serializeZip64EndOfCentralDirectoryRecord` from
lib/write.js: 56-byte fixed part plus the extensible data sector. -/
def serializeZip64EndOfCentralDirectoryRecord (o : Zip64EocdrArgs) : List Nat :=
  u32le 0x06064b50 ++ u64le (44 + o.zip64ExtensibleDataSector.length)
    ++ u16le o.versionMadeBy ++ u16le o.versionNeededToExtract
    ++ u32le o.diskNumber ++ u32le o.centralDirectoryDiskNumber
    ++ u64le o.numberOfEntriesOnDisk ++ u64le o.numberOfEntries
    ++ u64le o.sizeOfCentralDirectory ++ u64le o.centralDirectoryOffset
    ++ o.zip64ExtensibleDataSector

/-- The argument record of `serializeZip64EndOfCentralDirectoryLocator`. -/
structure Zip64EocdlArgs where
  zip64EndOfCentralDirectoryRecordDiskNumber : Nat
  zip64EndOfCentralDirectoryRecordOffset : Nat
  diskCount : Nat
deriving DecidableEq, Repr

/-- The serializer `serializeZip64EndOfCentralDirectoryLocator` from
lib/write.js (20 bytes). -/
def serializeZip64EndOfCentralDirectoryLocator (o : Zip64EocdlArgs) : List Nat :=
  u32le 0x07064b50 ++ u32le o.zip64EndOfCentralDirectoryRecordDiskNumber
    ++ u64le o.zip64EndOfCentralDirectoryRecordOffset ++ u32le o.diskCount

/- ===================== Write-side entries (lib/zip.js) ===================== -/

/-- The write-side `Entry` record kept by the writer (lib/zip.d.ts).  Fields
that may be `undefined` in JavaScript are `Option Nat`. -/
structure Entry where
  fileName : List Nat
  lastModFileTime : Nat
  lastModFileDate : Nat
  externalFileAttributes : Nat
  crc32 : Option Nat
  uncompressedSize : Option Nat
  compressedSize : Option Nat
  compressionMethod : Nat
  crcAndFileSizeKnown : Bool
  forceZip64Format : Bool
  comment : List Nat
  relativeOffsetOfLocalHeader : Option Nat
deriving DecidableEq, Repr

/-- The `useZip64Format` condition inside `getLocalFileHeader` (lib/zip.js):
forced, or sizes unknown, or either size at or above `0xffffffff` (a
JavaScript comparison against `undefined` is false, matching `getD 0`). -/
def localUseZip64Format (entry : Entry) : Bool :=
  entry.forceZip64Format || !entry.crcAndFileSizeKnown
    || decide (0xffffffff ≤ entry.uncompressedSize.getD 0)
    || decide (0xffffffff ≤ entry.compressedSize.getD 0)

/-- The ZIP64 extended-information extra-field payload built by
`getLocalFileHeader`: `Buffer.alloc(16)` is zero-filled and the sizes are
written only when they are known. -/
def localZeiefData (entry : Entry) : List Nat :=
  if entry.crcAndFileSizeKnown
  then u64le (entry.uncompressedSize.getD 0) ++ u64le (entry.compressedSize.getD 0)
  else List.replicate 16 0

/-- The field values computed by `getLocalFileHeader` (lib/zip.js) before it
calls `serializeLocalFileHeader`. -/
def getLocalFileHeaderArgs (entry : Entry) : LocalFileHeaderArgs where
  versionNeededToExtract :=
    if localUseZip64Format entry
    then VERSION_NEEDED_TO_EXTRACT_ZIP64 else VERSION_NEEDED_TO_EXTRACT_UTF8
  generalPurposeBitFlag :=
    if entry.crcAndFileSizeKnown
    then gpbfUtf8 else gpbfUtf8 ||| gpbfUnknownCrc32AndFileSizes
  compressionMethod := entry.compressionMethod
  fileLastModificationTime := entry.lastModFileTime
  fileLastModificationDate := entry.lastModFileDate
  crc32 := if entry.crcAndFileSizeKnown then entry.crc32.getD 0 else 0
  compressedSize :=
    if localUseZip64Format entry then 0xffffffff else entry.compressedSize.getD 0
  uncompressedSize :=
    if localUseZip64Format entry then 0xffffffff else entry.uncompressedSize.getD 0
  fileName := entry.fileName
  extraFields := if localUseZip64Format entry then [(1, localZeiefData entry)] else []

/-- The function `getLocalFileHeader` from lib/zip.js. -/
def getLocalFileHeader (entry : Entry) : List Nat :=
  serializeLocalFileHeader (getLocalFileHeaderArgs entry)

/-- The byte sequence that the `addEntry` helper of lib/zip.js emits for one
entry: the local file header, the body bytes pushed by the write callback,
and — exactly when `crcAndFileSizeKnown` is false — a data descriptor built
from the final CRC and sizes (lib/zip.js lines 537-557). -/
def entryEmission (entry : Entry) (body : List Nat)
    (finalCrc finalCompressedSize finalUncompressedSize : Nat) : List Nat :=
  getLocalFileHeader entry ++ body
    ++ (if entry.crcAndFileSizeKnown then []
        else serializeDataDescriptor finalCrc finalCompressedSize finalUncompressedSize)

/-- A concrete streamed entry: CRC and sizes unknown at local-header time. -/
def entryUnknownSizes : Entry where
  fileName := [97]
  lastModFileTime := 0
  lastModFileDate := 0
  externalFileAttributes := 0
  crc32 := none
  uncompressedSize := none
  compressedSize := none
  compressionMethod := 8
  crcAndFileSizeKnown := false
  forceZip64Format := false
  comment := []
  relativeOffsetOfLocalHeader := none

/-- C2 counterexample: for an entry with `crcAndFileSizeKnown` false, the
32-bit size fields of the emitted local header hold `0xffffffff` (the ZIP64
sentinel), not zero as the claim states. -/
theorem local_header_sizes_not_zero :
    readUInt32LE (getLocalFileHeader entryUnknownSizes) 18 = 0xffffffff ∧
    readUInt32LE (getLocalFileHeader entryUnknownSizes) 22 = 0xffffffff ∧
    (0xffffffff : Nat) ≠ 0 := by
  decide

/-- C2 amended: for every entry emitted with `crcAndFileSizeKnown` false,
the local header's CRC field is zero, both 32-bit size fields hold the ZIP64
sentinel `0xffffffff` backed by a 16-byte zeroed ZIP64 extra field, the
data-descriptor general-purpose bit 0x0008 is set, and a data descriptor is
emitted immediately after the entry's file data. -/
theorem local_header_unknown_sizes (entry : Entry) (body : List Nat)
    (finalCrc finalCompressedSize finalUncompressedSize : Nat)
    (h : entry.crcAndFileSizeKnown = false) :
    (getLocalFileHeaderArgs entry).crc32 = 0 ∧
    (getLocalFileHeaderArgs entry).compressedSize = 0xffffffff ∧
    (getLocalFileHeaderArgs entry).uncompressedSize = 0xffffffff ∧
    (getLocalFileHeaderArgs entry).generalPurposeBitFlag &&& 0x0008 = 0x0008 ∧
    (getLocalFileHeaderArgs entry).extraFields = [(1, List.replicate 16 0)] ∧
    (getLocalFileHeaderArgs entry).versionNeededToExtract = 45 ∧
    entryEmission entry body finalCrc finalCompressedSize finalUncompressedSize
      = getLocalFileHeader entry ++ body
        ++ serializeDataDescriptor finalCrc finalCompressedSize finalUncompressedSize := by
  have hz : localUseZip64Format entry = true := by
    simp [localUseZip64Format, h]
  refine ⟨?_, ?_, ?_, ?_, ?_, ?_, ?_⟩
  · simp [getLocalFileHeaderArgs, h]
  · simp [getLocalFileHeaderArgs, hz]
  · simp [getLocalFileHeaderArgs, hz]
  · simp [getLocalFileHeaderArgs, h]
    decide
  · simp [getLocalFileHeaderArgs, hz, localZeiefData, h]
  · simp [getLocalFileHeaderArgs, hz, VERSION_NEEDED_TO_EXTRACT_ZIP64]
  · simp [entryEmission, h]

/-- C2 witness: the amended statement at a concrete streamed entry. -/
theorem local_header_unknown_sizes_witness :
    (getLocalFileHeaderArgs entryUnknownSizes).crc32 = 0 ∧
    (getLocalFileHeaderArgs entryUnknownSizes).compressedSize = 0xffffffff ∧
    (getLocalFileHeaderArgs entryUnknownSizes).uncompressedSize = 0xffffffff ∧
    (getLocalFileHeaderArgs entryUnknownSizes).generalPurposeBitFlag &&& 0x0008 = 0x0008 ∧
    (getLocalFileHeaderArgs entryUnknownSizes).extraFields = [(1, List.replicate 16 0)] ∧
    (getLocalFileHeaderArgs entryUnknownSizes).versionNeededToExtract = 45 ∧
    entryEmission entryUnknownSizes [7] 1 1 1
      = getLocalFileHeader entryUnknownSizes ++ [7] ++ serializeDataDescriptor 1 1 1 :=
  local_header_unknown_sizes entryUnknownSizes [7] 1 1 1 rfl

/- ===================== Trailing records (lib/zip.js getEndOfCentralDirectoryRecord) ===================== -/

/-- The function `getEndOfCentralDirectoryRecord` from lib/zip.js: chooses
between the classic EOCDR alone and the ZIP64 EOCD record + locator +
classic EOCDR. -/
def getEndOfCentralDirectoryRecord (entryCount cursor offsetOfStartOfCentralDirectory : Nat)
    (comment : List Nat) (forceZip64Format : Bool) : List Nat :=
  let sizeOfCentralDirectory := cursor - offsetOfStartOfCentralDirectory
  let useZip64Format := forceZip64Format
    || decide (0xffff ≤ entryCount)
    || decide (0xffffffff ≤ sizeOfCentralDirectory)
    || decide (0xffffffff ≤ offsetOfStartOfCentralDirectory)
  let normalEntryCount := if forceZip64Format then 0xffff else entryCount
  let normalSizeOfCentralDirectory :=
    if forceZip64Format then 0xffffffff else sizeOfCentralDirectory
  let normalOffsetOfStartOfCentralDirectory :=
    if forceZip64Format then 0xffffffff else offsetOfStartOfCentralDirectory
  let eocdrBuffer := serializeEndOfCentralDirectoryRecord
    { diskNumber := 0
      centralDirectoryDiskNumber := 0
      numberOfEntriesOnDisk := normalEntryCount
      numberOfEntries := normalEntryCount
      sizeOfCentralDirectory := normalSizeOfCentralDirectory
      centralDirectoryOffset := normalOffsetOfStartOfCentralDirectory
      comment := comment }
  if !useZip64Format then eocdrBuffer
  else
    serializeZip64EndOfCentralDirectoryRecord
      { versionMadeBy := VERSION_MADE_BY
        versionNeededToExtract := VERSION_NEEDED_TO_EXTRACT_ZIP64
        diskNumber := 0
        centralDirectoryDiskNumber := 0
        numberOfEntriesOnDisk := entryCount
        numberOfEntries := entryCount
        sizeOfCentralDirectory := sizeOfCentralDirectory
        centralDirectoryOffset := offsetOfStartOfCentralDirectory
        zip64ExtensibleDataSector := [] }
    ++ serializeZip64EndOfCentralDirectoryLocator
      { zip64EndOfCentralDirectoryRecordDiskNumber := 0
        zip64EndOfCentralDirectoryRecordOffset := cursor
        diskCount := 1 }
    ++ eocdrBuffer

theorem serializeEndOfCentralDirectoryRecord_length (o : EocdrArgs) :
    (serializeEndOfCentralDirectoryRecord o).length = 22 + o.comment.length := by
  simp [serializeEndOfCentralDirectoryRecord, u16le, u32le]
  omega

theorem serializeZip64EndOfCentralDirectoryRecord_length (o : Zip64EocdrArgs) :
    (serializeZip64EndOfCentralDirectoryRecord o).length
      = 56 + o.zip64ExtensibleDataSector.length := by
  simp [serializeZip64EndOfCentralDirectoryRecord, u16le, u32le, u64le]
  omega

theorem serializeZip64EndOfCentralDirectoryLocator_length (o : Zip64EocdlArgs) :
    (serializeZip64EndOfCentralDirectoryLocator o).length = 20 := by
  simp [serializeZip64EndOfCentralDirectoryLocator, u16le, u32le, u64le]

/-- C4: the trailing records are emitted in ZIP64 form (ZIP64 EOCD record,
then ZIP64 EOCD locator, then the classic EOCDR) exactly when the entry
count, central-directory size or offset reaches its sentinel threshold or
ZIP64 is forced; otherwise only the classic 22-byte EOCDR plus comment is
emitted, carrying the narrow values. -/
theorem eocdr_zip64_promotion (entryCount cursor offset : Nat)
    (comment : List Nat) (force : Bool) (hoc : offset ≤ cursor) :
    (¬(force = true ∨ 0xffff ≤ entryCount ∨ 0xffffffff ≤ cursor - offset
        ∨ 0xffffffff ≤ offset) →
      getEndOfCentralDirectoryRecord entryCount cursor offset comment force
        = serializeEndOfCentralDirectoryRecord
            { diskNumber := 0
              centralDirectoryDiskNumber := 0
              numberOfEntriesOnDisk := entryCount
              numberOfEntries := entryCount
              sizeOfCentralDirectory := cursor - offset
              centralDirectoryOffset := offset
              comment := comment } ∧
      (getEndOfCentralDirectoryRecord entryCount cursor offset comment force).length
        = 22 + comment.length) ∧
    ((force = true ∨ 0xffff ≤ entryCount ∨ 0xffffffff ≤ cursor - offset
        ∨ 0xffffffff ≤ offset) →
      getEndOfCentralDirectoryRecord entryCount cursor offset comment force
        = serializeZip64EndOfCentralDirectoryRecord
            { versionMadeBy := VERSION_MADE_BY
              versionNeededToExtract := VERSION_NEEDED_TO_EXTRACT_ZIP64
              diskNumber := 0
              centralDirectoryDiskNumber := 0
              numberOfEntriesOnDisk := entryCount
              numberOfEntries := entryCount
              sizeOfCentralDirectory := cursor - offset
              centralDirectoryOffset := offset
              zip64ExtensibleDataSector := [] }
          ++ serializeZip64EndOfCentralDirectoryLocator
            { zip64EndOfCentralDirectoryRecordDiskNumber := 0
              zip64EndOfCentralDirectoryRecordOffset := cursor
              diskCount := 1 }
          ++ serializeEndOfCentralDirectoryRecord
            { diskNumber := 0
              centralDirectoryDiskNumber := 0
              numberOfEntriesOnDisk := if force then 0xffff else entryCount
              numberOfEntries := if force then 0xffff else entryCount
              sizeOfCentralDirectory := if force then 0xffffffff else cursor - offset
              centralDirectoryOffset := if force then 0xffffffff else offset
              comment := comment } ∧
      (getEndOfCentralDirectoryRecord entryCount cursor offset comment force).length
        = 98 + comment.length) := by
  constructor
  · intro hno
    push_neg at hno
    obtain ⟨hf, h1, h2, h3⟩ := hno
    have hforce : force = false := by
      cases force with
      | true => exact absurd rfl hf
      | false => rfl
    subst hforce
    have hb : (false || decide (0xffff ≤ entryCount)
        || decide (0xffffffff ≤ cursor - offset) || decide (0xffffffff ≤ offset)) = false := by
      simp; omega
    constructor
    · simp only [getEndOfCentralDirectoryRecord, hb, Bool.not_false, if_true,
        Bool.false_eq_true, if_false]
    · simp only [getEndOfCentralDirectoryRecord, hb, Bool.not_false, if_true,
        Bool.false_eq_true, if_false]
      rw [serializeEndOfCentralDirectoryRecord_length]
  · intro hyes
    have hb : (force || decide (0xffff ≤ entryCount)
        || decide (0xffffffff ≤ cursor - offset) || decide (0xffffffff ≤ offset)) = true := by
      rcases hyes with h | h | h | h
      · simp [h]
      · simp [h]
      · simp [h]
      · simp [h]
    constructor
    · cases force with
      | true =>
        simp only [getEndOfCentralDirectoryRecord, hb, Bool.not_true, if_true, if_false,
          Bool.false_eq_true, Bool.true_eq_false, if_true]
      | false =>
        simp only [getEndOfCentralDirectoryRecord, hb, Bool.not_true, if_true, if_false,
          Bool.false_eq_true, Bool.true_eq_false, if_true]
    · cases force with
      | true =>
        simp only [getEndOfCentralDirectoryRecord, hb, Bool.not_true, if_false,
          Bool.false_eq_true, Bool.true_eq_false, if_true]
        simp [serializeZip64EndOfCentralDirectoryRecord_length,
          serializeZip64EndOfCentralDirectoryLocator_length,
          serializeEndOfCentralDirectoryRecord_length]
        omega
      | false =>
        simp only [getEndOfCentralDirectoryRecord, hb, Bool.not_true, if_false,
          Bool.false_eq_true, Bool.true_eq_false, if_true]
        simp [serializeZip64EndOfCentralDirectoryRecord_length,
          serializeZip64EndOfCentralDirectoryLocator_length,
          serializeEndOfCentralDirectoryRecord_length]
        omega

/-- C4 witness: a small archive stays classic, a forced archive promotes. -/
theorem eocdr_zip64_promotion_witness :
    (getEndOfCentralDirectoryRecord 1 100 50 [] false).length = 22 ∧
    (getEndOfCentralDirectoryRecord 1 100 50 [] true).length = 98 := by
  constructor
  · have h := (eocdr_zip64_promotion 1 100 50 [] false (by omega)).1 (by decide)
    simpa using h.2
  · have h := (eocdr_zip64_promotion 1 100 50 [] true (by omega)).2 (Or.inl rfl)
    simpa using h.2

/- ===================== EOCDR discovery (lib/unzip.js fromRandomAccessReader) ===================== -/

/-- The backward scan of `fromRandomAccessReader` (lib/unzip.js): starting
at index i and walking down to 0, look for the EOCDR signature word; at the
first candidate found, fail on a nonzero disk number, then fail with an
invalid-comment-length error unless the encoded comment length equals
`buffer.length - 22 - i`; on success the candidate index is the position
used to open the archive. -/
def scanEocdr (buffer : List Nat) : Nat → Except ZipError Nat
  | 0 =>
    if readUInt32LE buffer 0 = 0x06054b50 then
      if readUInt16LE buffer 4 ≠ 0 then Except.error ZipError.multiDisk
      else if readUInt16LE buffer 20 = buffer.length - 22 then Except.ok 0
      else Except.error ZipError.invalidCommentLength
    else Except.error ZipError.eocdrNotFound
  | i + 1 =>
    if readUInt32LE buffer (i + 1) = 0x06054b50 then
      if readUInt16LE buffer (i + 1 + 4) ≠ 0 then Except.error ZipError.multiDisk
      else if readUInt16LE buffer (i + 1 + 20) = buffer.length - 22 - (i + 1) then
        Except.ok (i + 1)
      else Except.error ZipError.invalidCommentLength
    else scanEocdr buffer i

/-- The EOCDR search of `fromRandomAccessReader` over the trailing window
(already read into `buffer`): the loop runs from `buffer.length - 22` down
to 0, and a window shorter than 22 bytes finds nothing. -/
def findEocdr (buffer : List Nat) : Except ZipError Nat :=
  if buffer.length < 22 then Except.error ZipError.eocdrNotFound
  else scanEocdr buffer (buffer.length - 22)

/-- A 48-byte trailing window: a valid EOCDR at offset 0 whose 26-byte
comment itself contains an EOCDR signature at offset 22 with a wrong
comment-length word. -/
def cexEocdr : List Nat :=
  [0x50, 0x4b, 0x05, 0x06] ++ List.replicate 16 0 ++ [26, 0]
    ++ [0x50, 0x4b, 0x05, 0x06] ++ List.replicate 16 0 ++ [0, 0] ++ [0, 0, 0, 0]

/-- C1 counterexample: the window `cexEocdr` holds a candidate whose comment
length matches (at offset 0), yet the opener fails with an invalid-comment-
length error at the later candidate instead of continuing the scan. -/
theorem eocdr_scan_rejects_matching_earlier_candidate :
    findEocdr cexEocdr = Except.error ZipError.invalidCommentLength ∧
    readUInt32LE cexEocdr 0 = 0x06054b50 ∧
    readUInt16LE cexEocdr 20 = cexEocdr.length - 22 := by
  decide

theorem scanEocdr_no_sig_above (buffer : List Nat) (i : Nat) :
    ∀ k, i ≤ k →
      (∀ j, i < j → j ≤ k → readUInt32LE buffer j ≠ 0x06054b50) →
      scanEocdr buffer k = scanEocdr buffer i := by
  intro k
  induction k with
  | zero =>
    intro hik _
    have : i = 0 := Nat.le_zero.mp hik
    rw [this]
  | succ n ih =>
    intro hik hno
    rcases Nat.eq_or_lt_of_le hik with he | hlt
    · rw [he]
    · have hsig : readUInt32LE buffer (n + 1) ≠ 0x06054b50 :=
        hno (n + 1) hlt (Nat.le_refl _)
      have hstep : scanEocdr buffer (n + 1) = scanEocdr buffer n := by
        simp only [scanEocdr]
        rw [if_neg hsig]
      rw [hstep]
      exact ih (Nat.lt_succ_iff.mp hlt)
        (fun j hj1 hj2 => hno j hj1 (Nat.le_succ_of_le hj2))

theorem scanEocdr_at_candidate (buffer : List Nat) (i : Nat)
    (hsig : readUInt32LE buffer i = 0x06054b50)
    (hdisk : readUInt16LE buffer (i + 4) = 0) :
    scanEocdr buffer i =
      (if readUInt16LE buffer (i + 20) = buffer.length - 22 - i then Except.ok i
       else Except.error ZipError.invalidCommentLength) := by
  cases i with
  | zero =>
    simp only [scanEocdr]
    rw [if_pos hsig, if_neg (by simpa using hdisk)]
    simp
  | succ n =>
    simp only [scanEocdr]
    rw [if_pos hsig, if_neg (by simpa using hdisk)]

/-- C1 amended: the opener stops at the first candidate found scanning
backwards (the greatest signature position in the window); it opens the
archive at that candidate when its encoded comment length equals
`buffer.length - 22 - i`, and otherwise fails with an invalid-comment-length
error instead of continuing the scan. -/
theorem eocdr_scan_uses_last_candidate (buffer : List Nat) (i : Nat)
    (hlen : 22 ≤ buffer.length) (hi : i ≤ buffer.length - 22)
    (hsig : readUInt32LE buffer i = 0x06054b50)
    (hdisk : readUInt16LE buffer (i + 4) = 0)
    (habove : ∀ j, i < j → j ≤ buffer.length - 22 → readUInt32LE buffer j ≠ 0x06054b50) :
    findEocdr buffer =
      (if readUInt16LE buffer (i + 20) = buffer.length - 22 - i then Except.ok i
       else Except.error ZipError.invalidCommentLength) := by
  unfold findEocdr
  rw [if_neg (by omega)]
  rw [scanEocdr_no_sig_above buffer i (buffer.length - 22) hi habove]
  exact scanEocdr_at_candidate buffer i hsig hdisk

/-- A minimal 22-byte window holding one bare EOCDR. -/
def plainEocdr : List Nat :=
  [0x50, 0x4b, 0x05, 0x06] ++ List.replicate 16 0 ++ [0, 0]

/-- C1 witness: the amended statement applied at the bare 22-byte EOCDR. -/
theorem eocdr_scan_uses_last_candidate_witness :
    findEocdr plainEocdr = Except.ok 0 := by
  have hav : ∀ j, 0 < j → j ≤ plainEocdr.length - 22 →
      readUInt32LE plainEocdr j ≠ 0x06054b50 := by
    intro j h1 h2
    have hl : plainEocdr.length - 22 = 0 := by decide
    rw [hl] at h2
    omega
  have h := eocdr_scan_uses_last_candidate plainEocdr 0
    (by decide) (by decide) (by decide) (by decide) hav
  rw [if_pos (by decide)] at h
  exact h

/- ===================== ZIP64 resolution in readEntry (lib/unzip.js) ===================== -/

/-- The parsed central-directory file header (lib/read.js,
`readCentralDirectoryFileHeader`). -/
structure CentralDirectoryFileHeader where
  versionMadeBy : Nat
  versionNeededToExtract : Nat
  generalPurposeBitFlag : Nat
  compressionMethod : Nat
  fileLastModificationTime : Nat
  fileLastModificationDate : Nat
  crc32 : Nat
  compressedSize : Nat
  uncompressedSize : Nat
  diskNumberStart : Nat
  internalFileAttributes : Nat
  externalFileAttributes : Nat
  relativeOffsetOfLocalHeader : Nat
  fileName : List Nat
  extraFields : List (Nat × List Nat)
  comment : List Nat
deriving DecidableEq, Repr

/-- The four size/offset fields of a read-side entry after ZIP64
resolution. -/
structure ResolvedSizes where
  uncompressedSize : Nat
  compressedSize : Nat
  relativeOffsetOfLocalHeader : Nat
  diskNumberStart : Nat
deriving DecidableEq, Repr

/-- The loop in `readEntry` that finds the first extra field with id
0x0001. -/
def findZip64ExtraField : List (Nat × List Nat) → Option (List Nat)
  | [] => none
  | f :: rest => if f.1 = 0x0001 then some f.2 else findZip64ExtraField rest

/-- The ZIP64 resolution block of `readEntry` (lib/unzip.js), transcribed
with the source's conditions verbatim — including the disk-number branch,
which tests `relativeOffsetOfLocalHeader === 0xffffffff` rather than
`diskNumberStart === 0xffff`. -/
def resolveZip64SizeInfo (h : CentralDirectoryFileHeader) : Except ZipError ResolvedSizes :=
  if h.uncompressedSize = 0xffffffff ∨ h.compressedSize = 0xffffffff
      ∨ h.relativeOffsetOfLocalHeader = 0xffffffff ∨ h.diskNumberStart = 0xffff then
    match findZip64ExtraField h.extraFields with
    | none => Except.error ZipError.missingZip64ExtraField
    | some zip64EiefBuffer => do
      let p1 ←
        if h.uncompressedSize = 0xffffffff then
          if zip64EiefBuffer.length < 0 + 8 then
            Except.error ZipError.zip64MissingUncompressedSize
          else Except.ok (readBigUInt64LE zip64EiefBuffer 0, 0 + 8)
        else Except.ok (h.uncompressedSize, 0)
      let p2 ←
        if h.compressedSize = 0xffffffff then
          if zip64EiefBuffer.length < p1.2 + 8 then
            Except.error ZipError.zip64MissingCompressedSize
          else Except.ok (readBigUInt64LE zip64EiefBuffer p1.2, p1.2 + 8)
        else Except.ok (h.compressedSize, p1.2)
      let p3 ←
        if h.relativeOffsetOfLocalHeader = 0xffffffff then
          if zip64EiefBuffer.length < p2.2 + 8 then
            Except.error ZipError.zip64MissingRelativeOffset
          else Except.ok (readBigUInt64LE zip64EiefBuffer p2.2, p2.2 + 8)
        else Except.ok (h.relativeOffsetOfLocalHeader, p2.2)
      let diskNumberStart ←
        if h.relativeOffsetOfLocalHeader = 0xffffffff then
          if zip64EiefBuffer.length < p3.2 + 4 then
            Except.error ZipError.zip64MissingDiskNumberStart
          else Except.ok (readUInt32LE zip64EiefBuffer p3.2)
        else Except.ok h.diskNumberStart
      Except.ok ⟨p1.1, p2.1, p3.1, diskNumberStart⟩
  else
    Except.ok ⟨h.uncompressedSize, h.compressedSize,
      h.relativeOffsetOfLocalHeader, h.diskNumberStart⟩

/-- A header whose only sentinel is `diskNumberStart = 0xffff`, with a
4-byte ZIP64 payload carrying disk number 1. -/
def headerDiskSentinel : CentralDirectoryFileHeader where
  versionMadeBy := 0
  versionNeededToExtract := 45
  generalPurposeBitFlag := 0
  compressionMethod := 0
  fileLastModificationTime := 0
  fileLastModificationDate := 0
  crc32 := 0
  compressedSize := 10
  uncompressedSize := 10
  diskNumberStart := 0xffff
  internalFileAttributes := 0
  externalFileAttributes := 0
  relativeOffsetOfLocalHeader := 0
  fileName := []
  extraFields := [(1, [1, 0, 0, 0])]
  comment := []

/-- A header whose only sentinel is the local-header offset, with an 8-byte
ZIP64 payload carrying exactly that offset. -/
def headerOffsetSentinel : CentralDirectoryFileHeader where
  versionMadeBy := 0
  versionNeededToExtract := 45
  generalPurposeBitFlag := 0
  compressionMethod := 0
  fileLastModificationTime := 0
  fileLastModificationDate := 0
  crc32 := 0
  compressedSize := 10
  uncompressedSize := 10
  diskNumberStart := 0
  internalFileAttributes := 0
  externalFileAttributes := 0
  relativeOffsetOfLocalHeader := 0xffffffff
  fileName := []
  extraFields := [(1, [1, 0, 0, 0, 0, 0, 0, 0])]
  comment := []

/-- C3 evaluation at the failing inputs: with `diskNumberStart = 0xffff` the
reader keeps the sentinel and never reads the 4-byte payload slot, and with
the offset sentinel alone it demands (and here misses) a disk-number slot
the stored fields do not call for — both contrary to the claim, which says
the slot is consumed exactly when `diskNumberStart` was `0xffff`. -/
theorem zip64_disk_number_slot_mismatch :
    resolveZip64SizeInfo headerDiskSentinel
      = Except.ok ⟨10, 10, 0, 0xffff⟩ ∧
    (0xffff : Nat) ≠ 1 ∧
    resolveZip64SizeInfo headerOffsetSentinel
      = Except.error ZipError.zip64MissingDiskNumberStart := by
  decide

/- ===================== CRC-32 (external zlib primitive) ===================== -/

/-- One shift-and-conditionally-xor round of the reflected CRC-32
polynomial 0xEDB88320. -/
def crc32Round (c : Nat) : Nat :=
  if c % 2 = 1 then (c >>> 1) ^^^ 0xedb88320 else c >>> 1

/-- Fold one byte into a CRC-32 state (eight polynomial rounds). -/
def crc32Byte (c b : Nat) : Nat :=
  crc32Round (crc32Round (crc32Round (crc32Round
    (crc32Round (crc32Round (crc32Round (crc32Round (c ^^^ (b % 256)))))))))

/-- The external primitive `zlib.crc32(chunk, crc)`: the standard CRC-32 of
`chunk` continuing from the running value `crc`. -/
def crc32Update (crc : Nat) (chunk : List Nat) : Nat :=
  (chunk.foldl crc32Byte (crc ^^^ 0xffffffff)) ^^^ 0xffffffff

/-- A CRC-32 accumulated over a sequence of chunks, as the validating tap
and the writer taps do. -/
def crc32Chunks (crc : Nat) (chunks : List (List Nat)) : Nat :=
  chunks.foldl crc32Update crc

/- ===================== Validating tap (lib/unzip.js openReadStream) ===================== -/

/-- Total byte count of a chunk sequence. -/
def sumLen (chunks : List (List Nat)) : Nat :=
  (chunks.map List.length).sum

/-- The validating `Transform` of `openReadStream` (lib/unzip.js): per
chunk, add its length and fail once the running count exceeds
`uncompressedSize`, else accumulate the CRC and pass the chunk through;
at end of stream, fail unless the count equals `uncompressedSize` and the
CRC equals the stored CRC. -/
def validateChunks (uncompressedSize storedCrc : Nat) :
    List (List Nat) → Nat → Nat → Except ZipError (List Nat)
  | [], bytes, crc =>
    if bytes ≠ uncompressedSize then Except.error ZipError.notEnoughBytes
    else if crc ≠ storedCrc then Except.error ZipError.checksumMismatch
    else Except.ok []
  | chunk :: rest, bytes, crc =>
    if uncompressedSize < bytes + chunk.length then Except.error ZipError.tooManyBytes
    else
      match validateChunks uncompressedSize storedCrc rest
          (bytes + chunk.length) (crc32Update crc chunk) with
      | Except.ok out => Except.ok (chunk ++ out)
      | Except.error e => Except.error e

/-- The validating tap run from its initial state (bytes = 0, crc = 0). -/
def runValidateTap (uncompressedSize storedCrc : Nat)
    (chunks : List (List Nat)) : Except ZipError (List Nat) :=
  validateChunks uncompressedSize storedCrc chunks 0 0

theorem sumLen_nil : sumLen ([] : List (List Nat)) = 0 := rfl

theorem sumLen_cons (chunk : List Nat) (rest : List (List Nat)) :
    sumLen (chunk :: rest) = chunk.length + sumLen rest := by
  simp [sumLen]

theorem crc32Chunks_nil (crc : Nat) : crc32Chunks crc [] = crc := rfl

theorem crc32Chunks_cons (crc : Nat) (chunk : List Nat) (rest : List (List Nat)) :
    crc32Chunks crc (chunk :: rest) = crc32Chunks (crc32Update crc chunk) rest := rfl

theorem validateChunks_ok_imp (size stored : Nat) :
    ∀ chunks bytes crc l,
      validateChunks size stored chunks bytes crc = Except.ok l →
      l = chunks.flatten ∧ bytes + sumLen chunks = size
        ∧ crc32Chunks crc chunks = stored := by
  intro chunks
  induction chunks with
  | nil =>
    intro bytes crc l h
    simp only [validateChunks] at h
    by_cases h1 : bytes ≠ size
    · rw [if_pos h1] at h; exact Except.noConfusion h
    · rw [if_neg h1] at h
      by_cases h2 : crc ≠ stored
      · rw [if_pos h2] at h; exact Except.noConfusion h
      · rw [if_neg h2] at h
        cases h
        push_neg at h1 h2
        exact ⟨rfl, by rw [sumLen_nil]; omega, by rw [crc32Chunks_nil]; exact h2⟩
  | cons chunk rest ih =>
    intro bytes crc l h
    simp only [validateChunks] at h
    by_cases h1 : size < bytes + chunk.length
    · rw [if_pos h1] at h; exact Except.noConfusion h
    · rw [if_neg h1] at h
      cases hrec : validateChunks size stored rest (bytes + chunk.length)
          (crc32Update crc chunk) with
      | error e => rw [hrec] at h; exact Except.noConfusion h
      | ok out =>
        rw [hrec] at h
        cases h
        obtain ⟨hout, hsum, hcrc⟩ := ih (bytes + chunk.length) (crc32Update crc chunk) out hrec
        refine ⟨by simp [hout], ?_, ?_⟩
        · rw [sumLen_cons]; omega
        · rw [crc32Chunks_cons]; exact hcrc

theorem validateChunks_ok_of (size stored : Nat) :
    ∀ chunks bytes crc,
      bytes + sumLen chunks = size → crc32Chunks crc chunks = stored →
      validateChunks size stored chunks bytes crc = Except.ok chunks.flatten := by
  intro chunks
  induction chunks with
  | nil =>
    intro bytes crc hsum hcrc
    rw [sumLen_nil] at hsum
    rw [crc32Chunks_nil] at hcrc
    have hb : bytes = size := by omega
    simp [validateChunks, hb, hcrc]
  | cons chunk rest ih =>
    intro bytes crc hsum hcrc
    rw [sumLen_cons] at hsum
    rw [crc32Chunks_cons] at hcrc
    have hle : ¬(size < bytes + chunk.length) := by omega
    simp only [validateChunks, if_neg hle]
    rw [ih (bytes + chunk.length) (crc32Update crc chunk) (by omega) hcrc]
    simp

theorem validateChunks_too_many (size stored : Nat) :
    ∀ chunks bytes crc, bytes ≤ size → size < bytes + sumLen chunks →
      validateChunks size stored chunks bytes crc
        = Except.error ZipError.tooManyBytes := by
  intro chunks
  induction chunks with
  | nil =>
    intro bytes crc hle hgt
    rw [sumLen_nil] at hgt
    omega
  | cons chunk rest ih =>
    intro bytes crc hle hgt
    rw [sumLen_cons] at hgt
    by_cases h1 : size < bytes + chunk.length
    · simp [validateChunks, h1]
    · simp only [validateChunks, if_neg h1]
      rw [ih (bytes + chunk.length) (crc32Update crc chunk) (by omega) (by omega)]

theorem validateChunks_not_enough (size stored : Nat) :
    ∀ chunks bytes crc, bytes + sumLen chunks < size →
      validateChunks size stored chunks bytes crc
        = Except.error ZipError.notEnoughBytes := by
  intro chunks
  induction chunks with
  | nil =>
    intro bytes crc hlt
    rw [sumLen_nil] at hlt
    have hb : ¬bytes = size := by omega
    simp [validateChunks, hb]
  | cons chunk rest ih =>
    intro bytes crc hlt
    rw [sumLen_cons] at hlt
    have h1 : ¬(size < bytes + chunk.length) := by omega
    simp only [validateChunks, if_neg h1]
    rw [ih (bytes + chunk.length) (crc32Update crc chunk) (by omega)]

theorem validateChunks_bad_crc (size stored : Nat) :
    ∀ chunks bytes crc, bytes + sumLen chunks = size →
      crc32Chunks crc chunks ≠ stored →
      validateChunks size stored chunks bytes crc
        = Except.error ZipError.checksumMismatch := by
  intro chunks
  induction chunks with
  | nil =>
    intro bytes crc hsum hcrc
    rw [sumLen_nil] at hsum
    rw [crc32Chunks_nil] at hcrc
    have hb : bytes = size := by omega
    simp [validateChunks, hb, hcrc]
  | cons chunk rest ih =>
    intro bytes crc hsum hcrc
    rw [sumLen_cons] at hsum
    rw [crc32Chunks_cons] at hcrc
    have h1 : ¬(size < bytes + chunk.length) := by omega
    simp only [validateChunks, if_neg h1]
    rw [ih (bytes + chunk.length) (crc32Update crc chunk) (by omega) hcrc]

/-- C6: the validating tap completes and yields exactly the entry's bytes
when the byte count equals `uncompressedSize` and the accumulated CRC-32
equals the stored CRC; it fails with a too-many-bytes error during
consumption when the data exceeds `uncompressedSize`, with a length error at
end-of-stream when the data falls short, and with a checksum error when only
the CRC disagrees. -/
theorem validating_tap_correct (uncompressedSize storedCrc : Nat)
    (chunks : List (List Nat)) :
    (runValidateTap uncompressedSize storedCrc chunks = Except.ok chunks.flatten
        ↔ sumLen chunks = uncompressedSize ∧ crc32Chunks 0 chunks = storedCrc) ∧
    (∀ out, runValidateTap uncompressedSize storedCrc chunks = Except.ok out →
      out = chunks.flatten) ∧
    (uncompressedSize < sumLen chunks →
      runValidateTap uncompressedSize storedCrc chunks
        = Except.error ZipError.tooManyBytes) ∧
    (sumLen chunks < uncompressedSize →
      runValidateTap uncompressedSize storedCrc chunks
        = Except.error ZipError.notEnoughBytes) ∧
    (sumLen chunks = uncompressedSize → crc32Chunks 0 chunks ≠ storedCrc →
      runValidateTap uncompressedSize storedCrc chunks
        = Except.error ZipError.checksumMismatch) := by
  refine ⟨⟨fun h => ?_, fun ⟨hsum, hcrc⟩ => ?_⟩, fun out h => ?_, fun h => ?_,
    fun h => ?_, fun hsum hcrc => ?_⟩
  · obtain ⟨_, hsum, hcrc⟩ := validateChunks_ok_imp uncompressedSize storedCrc chunks 0 0
      chunks.flatten h
    exact ⟨by omega, hcrc⟩
  · exact validateChunks_ok_of uncompressedSize storedCrc chunks 0 0 (by omega) hcrc
  · exact (validateChunks_ok_imp uncompressedSize storedCrc chunks 0 0 out h).1
  · exact validateChunks_too_many uncompressedSize storedCrc chunks 0 0 (by omega) (by omega)
  · exact validateChunks_not_enough uncompressedSize storedCrc chunks 0 0 (by omega)
  · exact validateChunks_bad_crc uncompressedSize storedCrc chunks 0 0 (by omega) hcrc

/-- C6 witness: a two-chunk stream of total length 2 with the matching
CRC-32 completes and yields exactly its bytes. -/
theorem validating_tap_correct_witness :
    runValidateTap 2 (crc32Chunks 0 [[1], [2]]) [[1], [2]]
      = Except.ok ([[1], [2]] : List (List Nat)).flatten :=
  (validating_tap_correct 2 (crc32Chunks 0 [[1], [2]]) [[1], [2]]).1.mpr
    ⟨by decide, rfl⟩

/- ===================== Writer state machine (lib/zip.js class Zip) ===================== -/

/-- The writer state (class `Zip` in lib/zip.js): the queue latch (cleared
by `end()`), the output cursor, the bytes pushed so far, the recorded
entries, and the central-directory offset recorded at finalize. -/
structure ZipState where
  queueActive : Bool
  outputStreamCursor : Nat
  output : List Nat
  entries : List Entry
  offsetOfStartOfCentralDirectory : Option Nat
deriving DecidableEq, Repr

/-- A fresh writer, `new Zip({cursor})`. -/
def zipInit (cursor : Nat) : ZipState where
  queueActive := true
  outputStreamCursor := cursor
  output := []
  entries := []
  offsetOfStartOfCentralDirectory := none

/-- The helper `writeBuffer` (lib/zip.js): push the buffer, then advance the
cursor by its length. -/
def writeBuffer (z : ZipState) (buffer : List Nat) : ZipState :=
  { z with output := z.output ++ buffer,
           outputStreamCursor := z.outputStreamCursor + buffer.length }

/-- The helper `writeRawStream` (lib/zip.js): push every chunk while summing
the sizes, then advance the cursor by the total. -/
def writeRawStream (z : ZipState) (chunks : List (List Nat)) : ZipState :=
  { z with output := z.output ++ chunks.flatten,
           outputStreamCursor := z.outputStreamCursor + sumLen chunks }

/-- The helper `writeEntryStream` (lib/zip.js): stream the body through the
CRC/size tap.  For a deflate entry the deflated chunks are pushed by the
trailing tap and the cursor advances by the compressed byte count; for a
stored entry the source pushes nothing — its only tap counts bytes and
computes the CRC — yet the cursor still advances by the uncompressed size.
`deflateChunks` abstracts the external deflate-raw transform.  After the
body, a pre-declared CRC or uncompressed size must match the observed one. -/
def writeEntryStream (deflateChunks : List (List Nat) → List (List Nat))
    (z : ZipState) (entry : Entry) (chunks : List (List Nat)) :
    Except ZipError (ZipState × Entry) :=
  let uncompressedSize := sumLen chunks
  let crc32 := crc32Chunks 0 chunks
  let pushed : List (List Nat) :=
    if entry.compressionMethod = compressionMethodDeflate then deflateChunks chunks else []
  let compressedSize :=
    if entry.compressionMethod = compressionMethodDeflate
    then sumLen (deflateChunks chunks) else uncompressedSize
  let z1 := { z with output := z.output ++ pushed.flatten }
  do
    let c ←
      match entry.crc32 with
      | none => Except.ok crc32
      | some c => if c ≠ crc32 then Except.error ZipError.unexpectedChecksum else Except.ok c
    let u ←
      match entry.uncompressedSize with
      | none => Except.ok uncompressedSize
      | some u =>
        if u ≠ uncompressedSize then Except.error ZipError.unexpectedByteCount else Except.ok u
    Except.ok ({ z1 with outputStreamCursor := z1.outputStreamCursor + compressedSize },
      { entry with crc32 := some c, uncompressedSize := some u })

/-- A stored (method 0) streamed entry with nothing pre-declared, as
`addReadStream(stream, name, {compress: false})` creates it. -/
def entryStoredStream : Entry where
  fileName := [97]
  lastModFileTime := 0
  lastModFileDate := 0
  externalFileAttributes := 0
  crc32 := none
  uncompressedSize := none
  compressedSize := none
  compressionMethod := 0
  crcAndFileSizeKnown := false
  forceZip64Format := false
  comment := []
  relativeOffsetOfLocalHeader := none

/-- C9 at the failing input: on a stored streamed entry with a 3-byte body,
`writeEntryStream` advances the output cursor by 3 while pushing 0 bytes
(the stored branch of the source contains no push), breaking the
cursor-advance-equals-bytes-pushed invariant that `writeBuffer` and
`writeRawStream` do maintain. -/
theorem writer_cursor_stored_stream_divergence :
    (writeEntryStream (fun c => c) (zipInit 0) entryStoredStream [[97, 98, 99]]).map
        (fun r => (r.1.outputStreamCursor, r.1.output.length))
      = Except.ok (3, 0) ∧
    (writeRawStream (zipInit 0) [[97, 98, 99]]).outputStreamCursor = 3 ∧
    (writeRawStream (zipInit 0) [[97, 98, 99]]).output.length = 3 ∧
    (writeBuffer (zipInit 0) [97, 98, 99]).outputStreamCursor = 3 ∧
    (writeBuffer (zipInit 0) [97, 98, 99]).output.length = 3 := by
  decide

/-- The `addEntry` helper of lib/zip.js (lines 529-573): fail synchronously
when the queue latch is cleared (only `end()` clears it); otherwise resolve
the callback into an entry and the body bytes its write callback pushes,
record the local-header offset, write the local header, push the body,
account the compressed size against a pre-declared one, emit a data
descriptor when CRC/sizes were unknown, and append the entry. -/
def addEntryToZip (z : ZipState) (callback : Except ZipError (Entry × List Nat)) :
    Except ZipError (ZipState × Entry) :=
  if z.queueActive = false then Except.error ZipError.finalized
  else
    match callback with
    | Except.error e => Except.error e
    | Except.ok (entry, body) =>
      let entry1 := { entry with relativeOffsetOfLocalHeader := some z.outputStreamCursor }
      let z1 := writeBuffer z (getLocalFileHeader entry1)
      let z2 := writeBuffer z1 body
      let compressedSize := z2.outputStreamCursor - z1.outputStreamCursor
      match entry1.compressedSize with
      | none =>
        let entry2 := { entry1 with compressedSize := some compressedSize }
        let z3 :=
          if entry2.crcAndFileSizeKnown then z2
          else writeBuffer z2 (serializeDataDescriptor (entry2.crc32.getD 0)
            (entry2.compressedSize.getD 0) (entry2.uncompressedSize.getD 0))
        Except.ok ({ z3 with entries := z3.entries ++ [entry2] }, entry2)
      | some cs =>
        if compressedSize ≠ cs then Except.error ZipError.unexpectedCompressedSize
        else
          let z3 :=
            if entry1.crcAndFileSizeKnown then z2
            else writeBuffer z2 (serializeDataDescriptor (entry1.crc32.getD 0)
              (entry1.compressedSize.getD 0) (entry1.uncompressedSize.getD 0))
          Except.ok ({ z3 with entries := z3.entries ++ [entry1] }, entry1)

/-- The path sanitizer `sanitizeMetadataPath` (lib/zip.js): non-empty, not
absolute, no `..` segment, backslashes normalized, directory entries end in
a slash and file entries do not. -/
def sanitizeMetadataPath (metadataPath : List Char) (isDirectory : Bool) :
    Except ZipError (List Char) :=
  if metadataPath = [] then Except.error ZipError.emptyPath
  else
    let p := metadataPath.map fun c => if c = '\\' then '/' else c
    if (match p with
        | c :: d :: _ => c.isAlpha && d = ':'
        | _ => false) then Except.error ZipError.absolutePath
    else if p.head? = some '/' then Except.error ZipError.absolutePath
    else if (p.splitOn '/').contains ['.', '.'] then
      Except.error ZipError.invalidRelativePath
    else
      let looksLikeDirectory := p.getLast? = some '/'
      if isDirectory then Except.ok (if looksLikeDirectory then p else p ++ ['/'])
      else if looksLikeDirectory then Except.error ZipError.filePathEndsWithSlash
      else Except.ok p

/-- The function `createEntry` (lib/zip.js): validate name length, mode and
comment length, encode the DOS date/time, and build the write-side entry;
CRC and sizes are known exactly when all three were supplied. -/
def createEntry (fileName : List Char) (comment : List Nat) (compress : Bool)
    (compressedSize : Option Nat) (crc32 : Option Nat) (forceZip64Format : Bool)
    (mode : Nat) (mtime : DateTime) (uncompressedSize : Option Nat) :
    Except ZipError Entry :=
  let fileNameBytes := utf8Encode (fileName.map Char.toNat)
  if 0xffff < fileNameBytes.length then Except.error ZipError.fileNameTooLong
  else if mode &&& 0xffff ≠ mode then Except.error ZipError.invalidMode
  else if 0xffff < comment.length then Except.error ZipError.commentTooLong
  else
    let dosDateTime := dateToDosDateTime mtime
    Except.ok
      { fileName := fileNameBytes
        lastModFileTime := dosDateTime.time
        lastModFileDate := dosDateTime.date
        externalFileAttributes := (mode <<< 16) % 4294967296
        crc32 := crc32
        uncompressedSize := uncompressedSize
        compressedSize := compressedSize
        compressionMethod :=
          if compress then compressionMethodDeflate else compressionMethodNone
        crcAndFileSizeKnown :=
          crc32.isSome && uncompressedSize.isSome && compressedSize.isSome
        forceZip64Format := forceZip64Format
        comment := comment
        relativeOffsetOfLocalHeader := none }

/-- The method `addDirectory` (lib/zip.js): sanitize the path as a
directory, then queue a zero-length stored entry with crc 0. -/
def zipAddDirectory (z : ZipState) (fileName : List Char) (comment : List Nat)
    (forceZip64Format : Bool) (mode : Nat) (mtime : DateTime) :
    Except ZipError (ZipState × Entry) :=
  match sanitizeMetadataPath fileName true with
  | Except.error e => Except.error e
  | Except.ok name =>
    addEntryToZip z (do
      let entry ← createEntry name comment false (some 0) (some 0)
        forceZip64Format mode mtime (some 0)
      Except.ok (entry, []))

/-- The serializer `serializeCentralDirectoryFileHeader` from lib/write.js:
the 46-byte fixed part followed by name, extra fields and comment. -/
def serializeCentralDirectoryFileHeader (o : CentralDirectoryFileHeader) : List Nat :=
  u32le 0x02014b50 ++ u16le o.versionMadeBy ++ u16le o.versionNeededToExtract
    ++ u16le o.generalPurposeBitFlag ++ u16le o.compressionMethod
    ++ u16le o.fileLastModificationTime ++ u16le o.fileLastModificationDate
    ++ u32le o.crc32 ++ u32le o.compressedSize ++ u32le o.uncompressedSize
    ++ u16le o.fileName.length ++ u16le (serializeExtraFields o.extraFields).length
    ++ u16le o.comment.length ++ u16le o.diskNumberStart
    ++ u16le o.internalFileAttributes ++ u32le o.externalFileAttributes
    ++ u32le o.relativeOffsetOfLocalHeader
    ++ o.fileName ++ serializeExtraFields o.extraFields ++ o.comment

/-- The function `getCentralDirectoryRecord` (lib/zip.js): per-entry
central-directory record, in ZIP64 form when forced or when a size or the
local-header offset reaches `0xffffffff`. -/
def getCentralDirectoryRecord (entry : Entry) : List Nat :=
  let useZip64Format := entry.forceZip64Format
    || decide (0xffffffff ≤ entry.uncompressedSize.getD 0)
    || decide (0xffffffff ≤ entry.compressedSize.getD 0)
    || decide (0xffffffff ≤ entry.relativeOffsetOfLocalHeader.getD 0)
  let zeiefBuffer := u64le (entry.uncompressedSize.getD 0)
    ++ u64le (entry.compressedSize.getD 0)
    ++ u64le (entry.relativeOffsetOfLocalHeader.getD 0)
  serializeCentralDirectoryFileHeader
    { versionMadeBy := VERSION_MADE_BY
      versionNeededToExtract :=
        if !entry.crcAndFileSizeKnown then VERSION_NEEDED_TO_EXTRACT_ZIP64
        else if useZip64Format then VERSION_NEEDED_TO_EXTRACT_ZIP64
        else VERSION_NEEDED_TO_EXTRACT_UTF8
      generalPurposeBitFlag :=
        if entry.crcAndFileSizeKnown then gpbfUtf8
        else gpbfUtf8 ||| gpbfUnknownCrc32AndFileSizes
      compressionMethod := entry.compressionMethod
      fileLastModificationTime := entry.lastModFileTime
      fileLastModificationDate := entry.lastModFileDate
      crc32 := entry.crc32.getD 0
      compressedSize := if useZip64Format then 0xffffffff else entry.compressedSize.getD 0
      uncompressedSize := if useZip64Format then 0xffffffff else entry.uncompressedSize.getD 0
      diskNumberStart := 0
      internalFileAttributes := 0
      externalFileAttributes := entry.externalFileAttributes
      relativeOffsetOfLocalHeader :=
        if useZip64Format then 0xffffffff else entry.relativeOffsetOfLocalHeader.getD 0
      fileName := entry.fileName
      extraFields := if useZip64Format then [(1, zeiefBuffer)] else []
      comment := entry.comment }

/-- The scan for the 4-byte EOCDR signature inside an archive comment
(`comment.includes(eocdrSignatureBuffer)` in lib/zip.js). -/
def hasEocdrSignature : List Nat → Bool
  | a :: b :: c :: d :: rest =>
    (a == 0x50 && b == 0x4b && c == 0x05 && d == 0x06)
      || hasEocdrSignature (b :: c :: d :: rest)
  | _ => false

/-- The method `addCentralDirectoryRecord` (lib/zip.js): validate the
comment, record the central-directory offset, write one central-directory
record per entry, then the trailing records.  It does not clear the queue
latch. -/
def zipAddCentralDirectoryRecord (z : ZipState) (comment : List Nat)
    (forceZip64Format : Bool) : Except ZipError ZipState :=
  if z.queueActive = false then Except.error ZipError.finalized
  else if 0xffff < comment.length then Except.error ZipError.commentTooLong
  else if hasEocdrSignature comment then Except.error ZipError.eocdrSignatureInComment
  else
    let z1 := { z with offsetOfStartOfCentralDirectory := some z.outputStreamCursor }
    let z2 := z1.entries.foldl (fun acc e => writeBuffer acc (getCentralDirectoryRecord e)) z1
    Except.ok (writeBuffer z2 (getEndOfCentralDirectoryRecord z2.entries.length
      z2.outputStreamCursor z.outputStreamCursor comment forceZip64Format))

/-- The method `end()` (lib/zip.js): clear the queue latch, so that any
later addition fails with the operation-after-finalize error. -/
def zipEnd (z : ZipState) : ZipState :=
  { z with queueActive := false }

/-- The epoch of the DOS date format. -/
def epochDT : DateTime where
  year := 1980
  month := 1
  day := 1
  hour := 0
  minute := 0
  second := 0

/-- C5 counterexample: on a fresh writer, `addCentralDirectoryRecord`
completes, and a subsequent `addDirectory` still succeeds — it does not
fail with an operation-after-finalize error as the claim states. -/
theorem add_after_central_directory_succeeds :
    ((zipAddCentralDirectoryRecord (zipInit 0) [] false).bind
        (fun z1 => (zipAddDirectory z1 ['d'] [] false 16893 epochDT).map
          (fun r => r.1.queueActive))) = Except.ok true := by
  decide

/- ===================== addEntry without a read stream (lib/zip.js method addEntry) ===================== -/

/-- A JavaScript `Buffer | string` value: raw bytes, or an already decoded
string of code points. -/
inductive BufferOrString where
  | buf (bytes : List Nat)
  | str (codePoints : List Nat)
deriving DecidableEq, Repr

/-- A read-side entry as consumed by the writer's `addEntry` method
(lib/unzip.d.ts `Entry`): the raw central-directory header plus the decoded
and ZIP64-resolved fields. -/
structure SourceEntry where
  centralDirectoryFileHeader : CentralDirectoryFileHeader
  fileName : BufferOrString
  comment : BufferOrString
  modificationDate : DateTime
  compressedSize : Nat
  uncompressedSize : Nat
  relativeOffsetOfLocalHeader : Nat
  diskNumberStart : Nat
deriving DecidableEq, Repr

/-- Reclaiming a name or comment from a source entry in `addEntry`
(lib/zip.js): raw bytes pass through under the UTF-8 flag and are otherwise
re-encoded from their CP437 decoding; an already decoded string is UTF-8
encoded by `Buffer.from`. -/
def reclaimText (generalPurposeBitFlag : Nat) (v : BufferOrString) : List Nat :=
  match v with
  | BufferOrString.buf b =>
    if generalPurposeBitFlag &&& gpbfUtf8 ≠ 0 then b
    else utf8Encode (decodeCp437Full b)
  | BufferOrString.str s => utf8Encode s

/-- The file-name resolution of `addEntry` (lib/zip.js lines 69-84). -/
def addEntryFileName (entry : SourceEntry) (fileName : Option (List Nat)) :
    Except ZipError (List Nat) :=
  match fileName with
  | some fn =>
    if 0xffff < fn.length then Except.error ZipError.fileNameTooLong else Except.ok fn
  | none =>
    Except.ok (reclaimText entry.centralDirectoryFileHeader.generalPurposeBitFlag
      entry.fileName)

/-- The comment resolution of `addEntry` (lib/zip.js lines 86-100). -/
def addEntryComment (entry : SourceEntry) (comment : Option (List Nat)) :
    Except ZipError (List Nat) :=
  match comment with
  | some cm =>
    if 0xffff < cm.length then Except.error ZipError.commentTooLong else Except.ok cm
  | none =>
    Except.ok (reclaimText entry.centralDirectoryFileHeader.generalPurposeBitFlag
      entry.comment)

/-- The mode resolution of `addEntry` (lib/zip.js lines 102-112). -/
def addEntryAttributes (entry : SourceEntry) (mode : Option Nat) :
    Except ZipError Nat :=
  match mode with
  | some m =>
    if m &&& 0xffff ≠ m then Except.error ZipError.invalidMode
    else Except.ok ((m <<< 16) % 4294967296)
  | none => Except.ok entry.centralDirectoryFileHeader.externalFileAttributes

/-- The method `addEntry(entry)` of lib/zip.js with `createReadStream`
omitted: build the pending entry (CRC and sizes taken from the source
central-directory header, `crcAndFileSizeKnown` true, original local-header
offset), check the queue latch, and append the entry to the list — pushing
no bytes to the output. -/
def zipAddEntryMeta (z : ZipState) (entry : SourceEntry)
    (fileName comment : Option (List Nat)) (forceZip64Format : Bool)
    (mode : Option Nat) (mtime : Option DateTime) :
    Except ZipError (ZipState × Entry) :=
  match addEntryFileName entry fileName with
  | Except.error e => Except.error e
  | Except.ok fileNameBytes =>
    match addEntryComment entry comment with
    | Except.error e => Except.error e
    | Except.ok commentBytes =>
      match addEntryAttributes entry mode with
      | Except.error e => Except.error e
      | Except.ok externalFileAttributes =>
        let dosDateTime := dateToDosDateTime (mtime.getD entry.modificationDate)
        let pendingEntry : Entry :=
          { fileName := fileNameBytes
            lastModFileTime := dosDateTime.time
            lastModFileDate := dosDateTime.date
            externalFileAttributes := externalFileAttributes
            crc32 := some entry.centralDirectoryFileHeader.crc32
            uncompressedSize := some entry.uncompressedSize
            compressedSize := some entry.compressedSize
            compressionMethod := entry.centralDirectoryFileHeader.compressionMethod
            crcAndFileSizeKnown := true
            forceZip64Format := forceZip64Format
            comment := commentBytes
            relativeOffsetOfLocalHeader := some entry.relativeOffsetOfLocalHeader }
        if z.queueActive = false then Except.error ZipError.finalized
        else Except.ok ({ z with entries := z.entries ++ [pendingEntry] }, pendingEntry)

/-- C10: whenever `addEntry` without a read stream succeeds, the recorded
entry keeps the source's `relativeOffsetOfLocalHeader`, has
`crcAndFileSizeKnown` true with CRC and sizes taken from the source
central-directory data, and the writer's output, cursor and previously
recorded entries are untouched (the new entry is appended at the end). -/
theorem add_entry_meta_frame (z : ZipState) (entry : SourceEntry)
    (fileName comment : Option (List Nat)) (force : Bool)
    (mode : Option Nat) (mtime : Option DateTime) (z1 : ZipState) (e : Entry)
    (h : zipAddEntryMeta z entry fileName comment force mode mtime
      = Except.ok (z1, e)) :
    e.relativeOffsetOfLocalHeader = some entry.relativeOffsetOfLocalHeader ∧
    e.crcAndFileSizeKnown = true ∧
    e.crc32 = some entry.centralDirectoryFileHeader.crc32 ∧
    e.uncompressedSize = some entry.uncompressedSize ∧
    e.compressedSize = some entry.compressedSize ∧
    z1.output = z.output ∧
    z1.outputStreamCursor = z.outputStreamCursor ∧
    z1.entries = z.entries ++ [e] := by
  unfold zipAddEntryMeta at h
  cases h1 : addEntryFileName entry fileName with
  | error e0 => rw [h1] at h; exact Except.noConfusion h
  | ok fileNameBytes =>
    rw [h1] at h
    cases h2 : addEntryComment entry comment with
    | error e0 => rw [h2] at h; exact Except.noConfusion h
    | ok commentBytes =>
      rw [h2] at h
      cases h3 : addEntryAttributes entry mode with
      | error e0 => rw [h3] at h; exact Except.noConfusion h
      | ok externalFileAttributes =>
        rw [h3] at h
        dsimp only at h
        by_cases hq : z.queueActive = false
        · rw [if_pos hq] at h; exact Except.noConfusion h
        · rw [if_neg hq] at h
          cases h
          exact ⟨rfl, rfl, rfl, rfl, rfl, rfl, rfl, rfl⟩

/-- A small source entry for the C10 witness. -/
def srcEntrySample : SourceEntry where
  centralDirectoryFileHeader :=
    { versionMadeBy := 0
      versionNeededToExtract := 20
      generalPurposeBitFlag := 0
      compressionMethod := 0
      fileLastModificationTime := 0
      fileLastModificationDate := 33
      crc32 := 123
      compressedSize := 3
      uncompressedSize := 4
      diskNumberStart := 0
      internalFileAttributes := 0
      externalFileAttributes := 0
      relativeOffsetOfLocalHeader := 7
      fileName := [97]
      extraFields := []
      comment := [] }
  fileName := BufferOrString.buf [97]
  comment := BufferOrString.buf []
  modificationDate := epochDT
  compressedSize := 3
  uncompressedSize := 4
  relativeOffsetOfLocalHeader := 7
  diskNumberStart := 0

/-- The entry that `addEntry(srcEntrySample)` records. -/
def pendingEntrySample : Entry where
  fileName := [97]
  lastModFileTime := 0
  lastModFileDate := 33
  externalFileAttributes := 0
  crc32 := some 123
  uncompressedSize := some 4
  compressedSize := some 3
  compressionMethod := 0
  crcAndFileSizeKnown := true
  forceZip64Format := false
  comment := []
  relativeOffsetOfLocalHeader := some 7

/-- The writer state after `addEntry(srcEntrySample)` on `zipInit 5`. -/
def zipStateSample : ZipState where
  queueActive := true
  outputStreamCursor := 5
  output := []
  entries := [pendingEntrySample]
  offsetOfStartOfCentralDirectory := none

/-- C10 witness: the frame property at the sample source entry. -/
theorem add_entry_meta_frame_witness :
    pendingEntrySample.relativeOffsetOfLocalHeader
        = some srcEntrySample.relativeOffsetOfLocalHeader ∧
    pendingEntrySample.crcAndFileSizeKnown = true ∧
    pendingEntrySample.crc32
        = some srcEntrySample.centralDirectoryFileHeader.crc32 ∧
    pendingEntrySample.uncompressedSize = some srcEntrySample.uncompressedSize ∧
    pendingEntrySample.compressedSize = some srcEntrySample.compressedSize ∧
    zipStateSample.output = (zipInit 5).output ∧
    zipStateSample.outputStreamCursor = (zipInit 5).outputStreamCursor ∧
    zipStateSample.entries = (zipInit 5).entries ++ [pendingEntrySample] :=
  add_entry_meta_frame (zipInit 5) srcEntrySample none none false none none
    zipStateSample pendingEntrySample (by rfl)

theorem writeBuffer_queueActive (z : ZipState) (buffer : List Nat) :
    (writeBuffer z buffer).queueActive = z.queueActive := rfl

theorem foldl_writeBuffer_queueActive (es : List Entry) (acc : ZipState) :
    (es.foldl (fun a e => writeBuffer a (getCentralDirectoryRecord e)) acc).queueActive
      = acc.queueActive := by
  induction es generalizing acc with
  | nil => rfl
  | cons e0 rest ih =>
    rw [List.foldl_cons, ih, writeBuffer_queueActive]

/-- C5 amended: any addition made after `end()` has cleared the queue latch
fails synchronously with the operation-after-finalize error and pushes
nothing, and so does `addCentralDirectoryRecord` itself; but completing
`addCentralDirectoryRecord` does not finalize the writer — the latch is
untouched, and later additions still succeed. -/
theorem finalize_only_after_end :
    (∀ (z : ZipState) (cb : Except ZipError (Entry × List Nat)),
      z.queueActive = false →
      addEntryToZip z cb = Except.error ZipError.finalized) ∧
    (∀ (z : ZipState) (entry : SourceEntry) (fn cm : Option (List Nat))
        (force : Bool) (mode : Option Nat) (mtime : Option DateTime)
        (z1 : ZipState) (e : Entry),
      z.queueActive = false →
      zipAddEntryMeta z entry fn cm force mode mtime ≠ Except.ok (z1, e)) ∧
    (∀ (z : ZipState) (comment : List Nat) (force : Bool),
      z.queueActive = false →
      zipAddCentralDirectoryRecord z comment force
        = Except.error ZipError.finalized) ∧
    (∀ z : ZipState, (zipEnd z).queueActive = false) ∧
    (∀ (z : ZipState) (comment : List Nat) (force : Bool) (z1 : ZipState),
      zipAddCentralDirectoryRecord z comment force = Except.ok z1 →
      z1.queueActive = z.queueActive) := by
  refine ⟨?_, ?_, ?_, ?_, ?_⟩
  · intro z cb hq
    simp [addEntryToZip, hq]
  · intro z entry fn cm force mode mtime z1 e hq h
    unfold zipAddEntryMeta at h
    cases h1 : addEntryFileName entry fn with
    | error e0 => rw [h1] at h; exact Except.noConfusion h
    | ok fileNameBytes =>
      rw [h1] at h
      cases h2 : addEntryComment entry cm with
      | error e0 => rw [h2] at h; exact Except.noConfusion h
      | ok commentBytes =>
        rw [h2] at h
        cases h3 : addEntryAttributes entry mode with
        | error e0 => rw [h3] at h; exact Except.noConfusion h
        | ok externalFileAttributes =>
          rw [h3] at h
          dsimp only at h
          rw [if_pos hq] at h
          exact Except.noConfusion h
  · intro z comment force hq
    simp [zipAddCentralDirectoryRecord, hq]
  · intro z
    rfl
  · intro z comment force z1 h
    unfold zipAddCentralDirectoryRecord at h
    by_cases hq : z.queueActive = false
    · rw [if_pos hq] at h; exact Except.noConfusion h
    · rw [if_neg hq] at h
      by_cases hc : 0xffff < comment.length
      · rw [if_pos hc] at h; exact Except.noConfusion h
      · rw [if_neg hc] at h
        by_cases hs : hasEocdrSignature comment = true
        · rw [if_pos hs] at h; exact Except.noConfusion h
        · rw [if_neg hs] at h
          cases h
          rw [writeBuffer_queueActive, foldl_writeBuffer_queueActive]

/-- C5 witness: after `end()` the helper refuses a further addition. -/
theorem finalize_only_after_end_witness :
    addEntryToZip (zipEnd (zipInit 0)) (Except.ok (entryStoredStream, []))
      = Except.error ZipError.finalized :=
  finalize_only_after_end.1 (zipEnd (zipInit 0))
    (Except.ok (entryStoredStream, [])) rfl

end ArbZip
